import Mathlib

/-!
Shallow embedding of the trading bot's execution engine
(`src/trading_bot.py`, class `BasicBot`, plus the simpler
`src/bot.py` variant) and proofs about it.

Numeric values that the Python code carries as `float`/`Decimal` are
modelled as exact rationals (`ℚ`); `Decimal` floor division `//`
truncates toward zero and raises `DivisionByZero` when the divisor is
zero, which we model explicitly with an `Except` result.  The exchange
client is an oracle indexed by the global submission count, and every
engine operation additionally returns the trace of events it issued
(order submissions and timed sleeps), so that claims about "no further
submission" and delay patterns are statable.
-/

namespace TradingBot

/-- One entry of a symbol's filter list, as fetched from exchange
metadata: `filterType` selects the constraint kind, `stepSize` is read
for `LOT_SIZE` filters and `tickSize` for `PRICE_FILTER` ones. -/
structure ExchangeFilter where
  filterType : String
  stepSize : ℚ
  tickSize : ℚ
deriving DecidableEq, Repr

/-- `self.filters`: symbol → its filter list (a Python dict, modelled as
an association list consulted with `List.lookup`). -/
abbrev Filters := List (String × List ExchangeFilter)

/-- Python `str.upper()` on the character sequence (ASCII case map,
which is all these symbol/side strings use). -/
def strUpper (s : String) : String := String.mk (s.data.map Char.toUpper)

/-- Truncation of a rational toward zero, the rounding of Python
`Decimal.__floordiv__`. -/
def qTrunc (q : ℚ) : ℤ := q.num.tdiv q.den

/-- Errors the bot can surface: `Decimal` arithmetic failure (division
by a zero step), construction-time validation failures raised as
`ValueError`, the Python `ZeroDivisionError`, and remote
`BinanceAPIException`s. -/
inductive ApiError where
  | mk (status_code : ℤ) (message : String)
deriving DecidableEq, Repr

inductive BotError where
  /-- `decimal.DivisionByZero` from `val // step` with `step = 0`. -/
  | divisionByZero
  /-- `ValueError: Price required for LIMIT orders`. -/
  | priceRequiredForLimit
  /-- `ValueError: Both stop_price and price required for STOP_LIMIT`. -/
  | stopLimitParamsRequired
  /-- `ValueError: Unsupported order type: ...`. -/
  | unsupportedOrderType (t : String)
  /-- Python `ZeroDivisionError` (e.g. `total_qty / 0`). -/
  | zeroDivision
  /-- `BinanceAPIException` propagated from the exchange client. -/
  | api (e : ApiError)
deriving DecidableEq, Repr

/-- `quantized = (val // step) * step` in `Decimal` arithmetic:
truncate down the step lattice, raising `DivisionByZero` when the step
is zero. -/
def decQuantize (value step : ℚ) : Except BotError ℚ :=
  if step = 0 then Except.error BotError.divisionByZero
  else Except.ok ((qTrunc (value / step) : ℚ) * step)

/-- `BasicBot._adjust_precision` (trading_bot.py lines 31-41): look the
symbol up in the loaded filters (defaulting to the empty list), return
on the first filter whose `filterType` matches, quantizing the value
down to the step lattice with `Decimal` floor division; with no match
the raw value passes through unchanged.  A zero step makes
`val // step` raise. -/
def adjust_precision (filters : Filters) (symbol : String) (value : ℚ)
    (filter_type : String) : Except BotError ℚ :=
  match ((filters.lookup (strUpper symbol)).getD []).find?
      (fun f => f.filterType == filter_type) with
  | none => Except.ok value
  | some f =>
    decQuantize value (if filter_type == "LOT_SIZE" then f.stepSize else f.tickSize)

/-- The `params` dict handed to `client.futures_create_order`.  Optional
keys that a given order type omits are `none`. -/
structure OrderParams where
  symbol : String
  side : String
  type : String
  quantity : ℚ
  price : Option ℚ
  stopPrice : Option ℚ
  timeInForce : Option String
deriving DecidableEq, Repr

/-- An exchange response, abstract beyond identity. -/
structure ExchangeResponse where
  orderId : ℕ
deriving DecidableEq, Repr

/-- The external exchange client, as an oracle over the global
submission count (the exchange is stateful: the same request can
succeed on one call and fail on a later one). -/
abbrev Client := ℕ → OrderParams → Except ApiError ExchangeResponse

/-- The validation and parameter-construction stage of
`BasicBot.place_order` (trading_bot.py lines 49-91): upper-case the
symbol, normalize the quantity against `LOT_SIZE`, then dispatch on the
exact order-type string, checking required prices and normalizing them
against `PRICE_FILTER`.  `STOP_LIMIT` submits exchange type `"STOP"`. -/
def buildParams (filters : Filters) (symbol side order_type : String)
    (quantity : ℚ) (price stop_price : Option ℚ) :
    Except BotError OrderParams := do
  let s := (strUpper symbol)
  let qty ← adjust_precision filters s quantity "LOT_SIZE"
  if order_type = "MARKET" then
    return OrderParams.mk s (strUpper side) "MARKET" qty none none none
  else if order_type = "LIMIT" then
    match price with
    | none => throw BotError.priceRequiredForLimit
    | some p => do
      let pr ← adjust_precision filters s p "PRICE_FILTER"
      return OrderParams.mk s (strUpper side) "LIMIT" qty (some pr) none
        (some "GTC")
  else if order_type = "STOP_LIMIT" then
    match price, stop_price with
    | some p, some sp => do
      let pr ← adjust_precision filters s p "PRICE_FILTER"
      let spr ← adjust_precision filters s sp "PRICE_FILTER"
      return OrderParams.mk s (strUpper side) "STOP" qty (some pr) (some spr)
        (some "GTC")
    | _, _ => throw BotError.stopLimitParamsRequired
  else
    throw (BotError.unsupportedOrderType order_type)

/-- `BasicBot.place_order` (trading_bot.py lines 43-103): build the
parameters; on success submit them once via the client (call number
`k`), re-raising any `BinanceAPIException`.  The second component is
the list of submissions actually issued to the exchange. -/
def place_order (filters : Filters) (client : Client) (k : ℕ)
    (symbol side order_type : String) (quantity : ℚ)
    (price stop_price : Option ℚ) :
    Except BotError ExchangeResponse × List OrderParams :=
  match buildParams filters symbol side order_type quantity price stop_price with
  | Except.error e => (Except.error e, [])
  | Except.ok params =>
    match client k params with
    | Except.ok r => (Except.ok r, [params])
    | Except.error e => (Except.error (BotError.api e), [params])

/-- An observable event of a strategy run: one order submission to the
exchange, or one `time.sleep` of the given duration in seconds. -/
inductive Event where
  | submit (p : OrderParams)
  | sleep (d : ℚ)
deriving DecidableEq, Repr

/-- The TWAP loop body (trading_bot.py lines 111-115), by remaining
slice count `n`; `k` is the global submission count so far.  A raised
error propagates out and the accumulated `results` list is lost. -/
def twapGo (filters : Filters) (client : Client) (symbol side : String)
    (slice_qty delay : ℚ) (k : ℕ) :
    ℕ → Except BotError (List ExchangeResponse) × List Event
  | 0 => (Except.ok [], [])
  | n + 1 =>
    let pr := place_order filters client k symbol side "MARKET" slice_qty
      none none
    match pr.1 with
    | Except.error e => (Except.error e, pr.2.map Event.submit)
    | Except.ok r =>
      if n = 0 then
        (Except.ok [r], pr.2.map Event.submit)
      else
        let rest := twapGo filters client symbol side slice_qty delay
          (k + pr.2.length) n
        (rest.1.map (fun l => r :: l),
          pr.2.map Event.submit ++ Event.sleep delay :: rest.2)

/-- `BasicBot.execute_twap` (trading_bot.py lines 105-116):
`slice_qty = total_qty / intervals` raises `ZeroDivisionError` when
`intervals = 0`; otherwise run the slices, sleeping `delay` between
consecutive ones but not after the last. -/
def execute_twap (filters : Filters) (client : Client)
    (symbol side : String) (total_qty duration : ℚ) (intervals : ℕ) :
    Except BotError (List ExchangeResponse) × List Event :=
  if intervals = 0 then (Except.error BotError.zeroDivision, [])
  else
    twapGo filters client symbol side (total_qty / intervals)
      (duration / intervals) 0 intervals

/-- `np.linspace lo hi n` with its default inclusive endpoint: empty
for `n = 0`, the single point `lo` for `n = 1`, otherwise `n` evenly
spaced points from `lo` to `hi`. -/
def linspace (lo hi : ℚ) (n : ℕ) : List ℚ :=
  if n = 0 then []
  else if n = 1 then [lo]
  else (List.range n).map (fun i : ℕ => lo + (i : ℚ) * ((hi - lo) / ((n - 1 : ℕ) : ℚ)))

/-- The Grid loop body (trading_bot.py lines 124-126): submit one LIMIT
order per price, no pacing delay; a raised error propagates, losing the
accumulated results. -/
def gridGo (filters : Filters) (client : Client) (symbol side : String)
    (qty_per_order : ℚ) (k : ℕ) :
    List ℚ → Except BotError (List ExchangeResponse) × List Event
  | [] => (Except.ok [], [])
  | price :: rest =>
    let pr := place_order filters client k symbol side "LIMIT"
      qty_per_order (some price) none
    match pr.1 with
    | Except.error e => (Except.error e, pr.2.map Event.submit)
    | Except.ok r =>
      let tail := gridGo filters client symbol side qty_per_order
        (k + pr.2.length) rest
      (tail.1.map (fun l => r :: l), pr.2.map Event.submit ++ tail.2)

/-- `BasicBot.execute_grid` (trading_bot.py lines 118-127): the price
ladder is `np.linspace lower upper grids` (computed first, no error),
then `qty_per_order = total_qty / grids` raises `ZeroDivisionError`
when `grids = 0`; otherwise submit a LIMIT order at each price in the
ladder's order. -/
def execute_grid (filters : Filters) (client : Client)
    (symbol side : String) (total_qty lower_price upper_price : ℚ)
    (grids : ℕ) :
    Except BotError (List ExchangeResponse) × List Event :=
  if grids = 0 then (Except.error BotError.zeroDivision, [])
  else
    gridGo filters client symbol side (total_qty / grids) 0
      (linspace lower_price upper_price grids)

end TradingBot

namespace BotPy

open TradingBot

/-- `BasicBot.place_order` of the simpler `src/bot.py` (lines 25-50):
build the params dict with upper-cased symbol, side and type; a LIMIT
order (type compared case-insensitively) requires a price and adds
`timeInForce GTC`; any other type string is submitted as-is.  No
precision normalization exists in this variant. -/
def place_order (client : Client) (k : ℕ) (symbol side order_type : String)
    (quantity : ℚ) (price : Option ℚ) :
    Except BotError ExchangeResponse × List OrderParams :=
  let base := OrderParams.mk (strUpper symbol) (strUpper side) (strUpper order_type)
    quantity none none none
  let built : Except BotError OrderParams :=
    if (strUpper order_type) = "LIMIT" then
      match price with
      | none => Except.error BotError.priceRequiredForLimit
      | some p =>
        Except.ok (OrderParams.mk (strUpper symbol) (strUpper side)
          (strUpper order_type) quantity (some p) none (some "GTC"))
    else Except.ok base
  match built with
  | Except.error e => (Except.error e, [])
  | Except.ok params =>
    match client k params with
    | Except.ok r => (Except.ok r, [params])
    | Except.error e => (Except.error (BotError.api e), [params])

end BotPy

namespace TradingBot

/-- A concrete always-succeeding exchange client: call `k` returns the
response with `orderId = k`. -/
def okClient : Client := fun k _ => Except.ok (ExchangeResponse.mk k)

/-- A concrete client whose third call (index 2) fails with a
`BinanceAPIException` and all other calls succeed. -/
def failAt2 : Client := fun k _ =>
  if k = 2 then Except.error (ApiError.mk (-2019) "Margin is insufficient.")
  else Except.ok (ExchangeResponse.mk k)

/-- Number of order submissions in an event trace. -/
def submitCount (tr : List Event) : ℕ :=
  tr.countP (fun e => match e with | Event.submit _ => true | _ => false)

theorem qTrunc_eq_floor (q : ℚ) (h : 0 ≤ q) : qTrunc q = ⌊q⌋ := by
  rw [qTrunc, Int.tdiv_eq_ediv (Rat.num_nonneg.mpr h) (Int.natCast_nonneg q.den),
    Rat.floor_def]

theorem place_order_ok (filters : Filters) (client : Client) (k : ℕ)
    (symbol side order_type : String) (q : ℚ) (p sp : Option ℚ)
    (P : OrderParams) (r : ExchangeResponse)
    (hbuild : buildParams filters symbol side order_type q p sp = Except.ok P)
    (hcl : client k P = Except.ok r) :
    place_order filters client k symbol side order_type q p sp
      = (Except.ok r, [P]) := by
  simp [place_order, hbuild, hcl]

theorem place_order_apiError (filters : Filters) (client : Client) (k : ℕ)
    (symbol side order_type : String) (q : ℚ) (p sp : Option ℚ)
    (P : OrderParams) (e : ApiError)
    (hbuild : buildParams filters symbol side order_type q p sp = Except.ok P)
    (hcl : client k P = Except.error e) :
    place_order filters client k symbol side order_type q p sp
      = (Except.error (BotError.api e), [P]) := by
  simp [place_order, hbuild, hcl]

theorem buildParams_market (filters : Filters) (symbol side : String)
    (q qv : ℚ)
    (hq : adjust_precision filters (strUpper symbol) q "LOT_SIZE"
      = Except.ok qv) :
    buildParams filters symbol side "MARKET" q none none
      = Except.ok (OrderParams.mk (strUpper symbol) (strUpper side)
          "MARKET" qv none none none) := by
  simp [buildParams, hq]

theorem buildParams_limit (filters : Filters) (symbol side : String)
    (q p qv pv : ℚ)
    (hq : adjust_precision filters (strUpper symbol) q "LOT_SIZE"
      = Except.ok qv)
    (hp : adjust_precision filters (strUpper symbol) p "PRICE_FILTER"
      = Except.ok pv) :
    buildParams filters symbol side "LIMIT" q (some p) none
      = Except.ok (OrderParams.mk (strUpper symbol) (strUpper side)
          "LIMIT" qv (some pv) none (some "GTC")) := by
  simp [buildParams, hq, hp, bind, Except.bind, pure, Except.pure]

theorem buildParams_stop_limit (filters : Filters) (symbol side : String)
    (q p sp qv pv sv : ℚ)
    (hq : adjust_precision filters (strUpper symbol) q "LOT_SIZE"
      = Except.ok qv)
    (hp : adjust_precision filters (strUpper symbol) p "PRICE_FILTER"
      = Except.ok pv)
    (hsp : adjust_precision filters (strUpper symbol) sp "PRICE_FILTER"
      = Except.ok sv) :
    buildParams filters symbol side "STOP_LIMIT" q (some p) (some sp)
      = Except.ok (OrderParams.mk (strUpper symbol) (strUpper side)
          "STOP" qv (some pv) (some sv) (some "GTC")) := by
  simp [buildParams, hq, hp, hsp, bind, Except.bind, pure, Except.pure]

theorem linspace_length (lo hi : ℚ) (n : ℕ) : (linspace lo hi n).length = n := by
  unfold linspace
  by_cases h0 : n = 0
  · simp [h0]
  · by_cases h1 : n = 1
    · simp [h0, h1]
    · rw [if_neg h0, if_neg h1, List.length_map, List.length_range]

/-- C2: precision normalization truncates down the step lattice: whenever
the symbol's filter list has a filter of the requested kind whose step
`s` is positive and the raw value is nonnegative, `_adjust_precision`
returns `⌊value/s⌋ * s`, which is at most `value`, is an exact integer
multiple of `s`, and is within less than one step of `value`. -/
theorem adjust_precision_largest_multiple
    (filters : Filters) (symbol filter_type : String) (value : ℚ)
    (f : ExchangeFilter) (s : ℚ)
    (hfind : ((filters.lookup (strUpper symbol)).getD []).find?
      (fun g => g.filterType == filter_type) = some f)
    (hstep : (if filter_type == "LOT_SIZE" then f.stepSize else f.tickSize) = s)
    (hpos : 0 < s) (hv : 0 ≤ value) :
    adjust_precision filters symbol value filter_type
      = Except.ok ((⌊value / s⌋ : ℚ) * s)
    ∧ (⌊value / s⌋ : ℚ) * s ≤ value
    ∧ (∃ k : ℤ, (⌊value / s⌋ : ℚ) * s = (k : ℚ) * s)
    ∧ value - (⌊value / s⌋ : ℚ) * s < s := by
  have hne : s ≠ 0 := ne_of_gt hpos
  have hq : (0 : ℚ) ≤ value / s := div_nonneg hv (le_of_lt hpos)
  refine ⟨?_, ?_, ⟨⌊value / s⌋, rfl⟩, ?_⟩
  · simp only [adjust_precision, hfind, hstep, decQuantize, if_neg hne,
      qTrunc_eq_floor _ hq]
  · calc ((⌊value / s⌋ : ℚ)) * s ≤ (value / s) * s :=
          mul_le_mul_of_nonneg_right (Int.floor_le _) (le_of_lt hpos)
    _ = value := div_mul_cancel₀ value hne
  · have h1 : value / s < (⌊value / s⌋ : ℚ) + 1 := Int.lt_floor_add_one _
    have h2 : value < ((⌊value / s⌋ : ℚ) + 1) * s := by
      calc value = (value / s) * s := (div_mul_cancel₀ value hne).symm
      _ < ((⌊value / s⌋ : ℚ) + 1) * s := by
          exact mul_lt_mul_of_pos_right h1 hpos
    linarith [h2]

/-- C2 witness: a concrete symbol table with quantity step 2 and the
raw value 7. -/
theorem adjust_precision_largest_multiple_witness :
    adjust_precision [("B", [ExchangeFilter.mk "LOT_SIZE" 2 0])] "b"
      7 "LOT_SIZE" = Except.ok ((⌊(7 : ℚ) / (2 : ℚ)⌋ : ℚ) * 2)
    ∧ (⌊(7 : ℚ) / (2 : ℚ)⌋ : ℚ) * 2 ≤ 7
    ∧ (∃ k : ℤ, (⌊(7 : ℚ) / (2 : ℚ)⌋ : ℚ) * 2 = (k : ℚ) * 2)
    ∧ (7 : ℚ) - (⌊(7 : ℚ) / (2 : ℚ)⌋ : ℚ) * 2 < 2 :=
  adjust_precision_largest_multiple
    [("B", [ExchangeFilter.mk "LOT_SIZE" 2 0])] "b" "LOT_SIZE" 7
    (ExchangeFilter.mk "LOT_SIZE" 2 0) 2
    (by simp [List.lookup, List.find?]) (by simp) (by norm_num) (by norm_num)

end TradingBot

namespace TradingBot

/-- C4 (amended): normalization is a pass-through exactly when no
applicable filter is found — the symbol is absent from the loaded
rules, or its filter list has no entry of the requested kind.  When a
matching filter is present but its step is zero, the call does NOT pass
the value through: `Decimal` floor division raises `DivisionByZero`. -/
theorem adjust_precision_passthrough
    (filters : Filters) (symbol filter_type : String) (value : ℚ) :
    (((filters.lookup (strUpper symbol)).getD []).find?
        (fun f => f.filterType == filter_type) = none →
      adjust_precision filters symbol value filter_type = Except.ok value)
    ∧ (∀ f, ((filters.lookup (strUpper symbol)).getD []).find?
          (fun f => f.filterType == filter_type) = some f →
        (if filter_type == "LOT_SIZE" then f.stepSize else f.tickSize) = 0 →
        adjust_precision filters symbol value filter_type
          = Except.error BotError.divisionByZero) := by
  constructor
  · intro h
    simp only [adjust_precision, h]
  · intro f hf h0
    simp only [beq_iff_eq] at h0
    simp [adjust_precision, hf, h0, decQuantize]

/-- C4 witness: an empty rules table passes `5` through unchanged; a
table whose `LOT_SIZE` step is `0` raises instead. -/
theorem adjust_precision_passthrough_witness :
    adjust_precision [] "B" 5 "LOT_SIZE" = Except.ok 5
    ∧ adjust_precision [("B", [ExchangeFilter.mk "LOT_SIZE" 0 0])] "B" 5
        "LOT_SIZE" = Except.error BotError.divisionByZero :=
  ⟨(adjust_precision_passthrough [] "B" "LOT_SIZE" 5).1 rfl,
   (adjust_precision_passthrough [("B", [ExchangeFilter.mk "LOT_SIZE" 0 0])]
      "B" "LOT_SIZE" 5).2 (ExchangeFilter.mk "LOT_SIZE" 0 0)
      (by decide) (by decide)⟩

/-- C4 counterexample: with the symbol present and its `LOT_SIZE` step
equal to zero, `_adjust_precision` does not return the raw value
unchanged — it fails with a division-by-zero error. -/
theorem adjust_precision_zero_step_not_passthrough :
    adjust_precision [("B", [ExchangeFilter.mk "LOT_SIZE" 0 0])] "B" 5
        "LOT_SIZE" = Except.error BotError.divisionByZero
    ∧ adjust_precision [("B", [ExchangeFilter.mk "LOT_SIZE" 0 0])] "B" 5
        "LOT_SIZE" ≠ Except.ok 5 := by
  have h1 : adjust_precision [("B", [ExchangeFilter.mk "LOT_SIZE" 0 0])] "B" 5
      "LOT_SIZE" = Except.error BotError.divisionByZero := rfl
  exact ⟨h1, by simp [h1]⟩

/-- C3 (amended): a TWAP call with `intervalCount = 0` and a Grid call
with `gridLevels = 0` are both rejected by the Python
`ZeroDivisionError` raised while deriving the per-slice quantity,
before any order submission is issued (the event trace is empty).
(`lowerPrice > upperPrice`, by contrast, is NOT rejected — see the
counterexample.) -/
theorem zero_count_rejected_before_submission :
    (∀ (filters : Filters) (client : Client) (symbol side : String)
      (tq dur : ℚ),
      execute_twap filters client symbol side tq dur 0
        = (Except.error BotError.zeroDivision, []))
    ∧ (∀ (filters : Filters) (client : Client) (symbol side : String)
      (tq lo hi : ℚ),
      execute_grid filters client symbol side tq lo hi 0
        = (Except.error BotError.zeroDivision, [])) := by
  constructor
  · intro filters client symbol side tq dur
    simp [execute_twap]
  · intro filters client symbol side tq lo hi
    simp [execute_grid]

/-- C3 counterexample: `executeGrid` with `lowerPrice = 200 >
upperPrice = 100` is not rejected: with an always-succeeding client it
issues two LIMIT submissions (at the descending prices 200 then 100)
and returns their responses. -/
theorem grid_inverted_bounds_not_rejected :
    execute_grid [] okClient "B" "BUY" 10 200 100 2
      = (Except.ok [ExchangeResponse.mk 0, ExchangeResponse.mk 1],
         [Event.submit (OrderParams.mk "B" "BUY" "LIMIT" 5 (some 200) none
            (some "GTC")),
          Event.submit (OrderParams.mk "B" "BUY" "LIMIT" 5 (some 100) none
            (some "GTC"))]) := by
  have h5 : (10 : ℚ) / ((2 : ℕ) : ℚ) = 5 := by norm_num
  have hlin : linspace 200 100 2 = [200, 100] := by
    norm_num [linspace, List.range_succ]
  have hp1 : place_order [] okClient 0 "B" "BUY" "LIMIT" 5 (some 200) none
      = (Except.ok (ExchangeResponse.mk 0),
         [OrderParams.mk "B" "BUY" "LIMIT" 5 (some 200) none (some "GTC")]) :=
    place_order_ok [] okClient 0 "B" "BUY" "LIMIT" 5 (some 200) none _ _
      (buildParams_limit [] "B" "BUY" 5 200 5 200 rfl rfl) rfl
  have hp2 : place_order [] okClient 1 "B" "BUY" "LIMIT" 5 (some 100) none
      = (Except.ok (ExchangeResponse.mk 1),
         [OrderParams.mk "B" "BUY" "LIMIT" 5 (some 100) none (some "GTC")]) :=
    place_order_ok [] okClient 1 "B" "BUY" "LIMIT" 5 (some 100) none _ _
      (buildParams_limit [] "B" "BUY" 5 100 5 100 rfl rfl) rfl
  norm_num [execute_grid, hlin, h5, gridGo, hp1, hp2, Except.map]

end TradingBot

namespace TradingBot

/-- C8: construction-time validation: a LIMIT order without a price
fails with the missing-price error, a STOP_LIMIT order with a price but
no stop price fails with the stop-limit-parameters error, and any order
type outside MARKET/LIMIT/STOP_LIMIT fails with the unsupported-type
error; in all three cases the submission list is empty, so no exchange
call is attempted.  (The only hypothesis is that the preceding quantity
normalization itself succeeds.) -/
theorem place_order_construction_failures
    (filters : Filters) (client : Client) (k : ℕ) (symbol side : String)
    (q p sp qv : ℚ)
    (hq : adjust_precision filters (strUpper symbol) q "LOT_SIZE"
      = Except.ok qv) :
    place_order filters client k symbol side "LIMIT" q none none
      = (Except.error BotError.priceRequiredForLimit, [])
    ∧ place_order filters client k symbol side "STOP_LIMIT" q (some p) none
      = (Except.error BotError.stopLimitParamsRequired, [])
    ∧ (∀ ot : String, ot ≠ "MARKET" → ot ≠ "LIMIT" → ot ≠ "STOP_LIMIT" →
        place_order filters client k symbol side ot q (some p) (some sp)
          = (Except.error (BotError.unsupportedOrderType ot), [])) := by
  refine ⟨?_, ?_, ?_⟩
  · simp [place_order, buildParams, hq, bind, Except.bind, throw,
      throwThe, MonadExceptOf.throw]
  · simp [place_order, buildParams, hq, bind, Except.bind, throw,
      throwThe, MonadExceptOf.throw]
  · intro ot h1 h2 h3
    simp [place_order, buildParams, hq, bind, Except.bind, throw,
      throwThe, MonadExceptOf.throw, h1, h2, h3]

/-- C8 witness: concrete instances of all three failures with an empty
rules table. -/
theorem place_order_construction_failures_witness :
    place_order [] okClient 0 "B" "BUY" "LIMIT" 1 none none
      = (Except.error BotError.priceRequiredForLimit, [])
    ∧ place_order [] okClient 0 "B" "BUY" "STOP_LIMIT" 1 (some 5) none
      = (Except.error BotError.stopLimitParamsRequired, [])
    ∧ place_order [] okClient 0 "B" "BUY" "TAKE_PROFIT" 1 (some 5) (some 4)
      = (Except.error (BotError.unsupportedOrderType "TAKE_PROFIT"), []) := by
  obtain ⟨h1, h2, h3⟩ :=
    place_order_construction_failures [] okClient 0 "B" "BUY" 1 5 4 1 rfl
  exact ⟨h1, h2, h3 "TAKE_PROFIT" (by decide) (by decide) (by decide)⟩

/-- C9: `place_order` is case-insensitive in its symbol and side
arguments: two calls (to either variant of the bot) whose symbols and
sides agree up to letter casing build identical requests and return
identical results. -/
theorem place_order_case_insensitive
    (filters : Filters) (client : Client) (k : ℕ)
    (s1 s2 side1 side2 : String)
    (hs : strUpper s1 = strUpper s2)
    (hside : strUpper side1 = strUpper side2)
    (ot : String) (q : ℚ) (p sp : Option ℚ) :
    place_order filters client k s1 side1 ot q p sp
      = place_order filters client k s2 side2 ot q p sp
    ∧ BotPy.place_order client k s1 side1 ot q p
      = BotPy.place_order client k s2 side2 ot q p := by
  constructor
  · simp only [place_order, buildParams, hs, hside]
  · simp only [BotPy.place_order, hs, hside]

/-- C9 witness: `btcusdt`/`BtcUsdt` and `buy`/`BUY` agree up to case,
so the corresponding calls coincide. -/
theorem place_order_case_insensitive_witness :
    place_order [] okClient 0 "btcusdt" "buy" "MARKET" 1 none none
      = place_order [] okClient 0 "BtcUsdt" "BUY" "MARKET" 1 none none
    ∧ BotPy.place_order okClient 0 "btcusdt" "buy" "MARKET" 1 none
      = BotPy.place_order okClient 0 "BtcUsdt" "BUY" "MARKET" 1 none :=
  place_order_case_insensitive [] okClient 0 "btcusdt" "BtcUsdt" "buy" "BUY"
    (by decide) (by decide) "MARKET" 1 none none

/-- C10: a STOP_LIMIT call with both price and stop price submits a
request whose exchange order type field is `"STOP"` (not
`"STOP_LIMIT"`), whose price and stopPrice are each normalized against
the symbol's price tick, and whose timeInForce is `"GTC"` — whatever
the exchange then answers. -/
theorem stop_limit_submits_stop_type
    (filters : Filters) (client : Client) (k : ℕ) (symbol side : String)
    (q p sp qv pv sv : ℚ)
    (hq : adjust_precision filters (strUpper symbol) q "LOT_SIZE"
      = Except.ok qv)
    (hp : adjust_precision filters (strUpper symbol) p "PRICE_FILTER"
      = Except.ok pv)
    (hsp : adjust_precision filters (strUpper symbol) sp "PRICE_FILTER"
      = Except.ok sv) :
    (place_order filters client k symbol side "STOP_LIMIT" q (some p)
        (some sp)).2
      = [OrderParams.mk (strUpper symbol) (strUpper side) "STOP" qv
          (some pv) (some sv) (some "GTC")] := by
  have hb := buildParams_stop_limit filters symbol side q p sp qv pv sv
    hq hp hsp
  rcases hcl : client k (OrderParams.mk (strUpper symbol) (strUpper side)
      "STOP" qv (some pv) (some sv) (some "GTC")) with e | r
  · simp [place_order, hb, hcl]
  · simp [place_order, hb, hcl]

/-- C10 witness: with a price tick of 2 loaded for the symbol, a
STOP_LIMIT call at price 101 and stop price 99 submits type `"STOP"`
with both prices truncated to the tick (100 and 98) and `GTC`. -/
theorem stop_limit_submits_stop_type_witness :
    (place_order [("B", [ExchangeFilter.mk "PRICE_FILTER" 0 2])] okClient 0
        "b" "buy" "STOP_LIMIT" 1 (some 101) (some 99)).2
      = [OrderParams.mk "B" "BUY" "STOP" 1 (some 100) (some 98)
          (some "GTC")] := by
  have hkey : strUpper (strUpper "b") = "B" := by decide
  have hne : "PRICE_FILTER" ≠ "LOT_SIZE" := by decide
  have htr1 : qTrunc ((101 : ℚ) / 2) = 50 := by
    rw [qTrunc_eq_floor _ (by norm_num)]; norm_num
  have htr2 : qTrunc ((99 : ℚ) / 2) = 49 := by
    rw [qTrunc_eq_floor _ (by norm_num)]; norm_num
  have h101 : adjust_precision [("B", [ExchangeFilter.mk "PRICE_FILTER" 0 2])]
      (strUpper "b") 101 "PRICE_FILTER" = Except.ok 100 := by
    simp only [adjust_precision, hkey]
    norm_num [List.lookup, List.find?, decQuantize, htr1, if_neg hne]
  have h99 : adjust_precision [("B", [ExchangeFilter.mk "PRICE_FILTER" 0 2])]
      (strUpper "b") 99 "PRICE_FILTER" = Except.ok 98 := by
    simp only [adjust_precision, hkey]
    norm_num [List.lookup, List.find?, decQuantize, htr2, if_neg hne]
  exact stop_limit_submits_stop_type
    [("B", [ExchangeFilter.mk "PRICE_FILTER" 0 2])] okClient 0 "b" "buy"
    1 101 99 1 100 98 rfl h101 h99

end TradingBot

namespace TradingBot

theorem twapGo_failfast (filters : Filters) (client : Client)
    (symbol side : String) (slice_qty delay : ℚ) (P : OrderParams)
    (e : ApiError)
    (hP : buildParams filters symbol side "MARKET" slice_qty none none
      = Except.ok P) :
    ∀ (j n k : ℕ), j < n →
    (∀ i, i < j → ∃ r, client (k + i) P = Except.ok r) →
    client (k + j) P = Except.error e →
    (twapGo filters client symbol side slice_qty delay k n).1
        = Except.error (BotError.api e)
    ∧ submitCount (twapGo filters client symbol side slice_qty delay k n).2
        = j + 1 := by
  intro j
  induction j with
  | zero =>
    intro n k hj hok hfail
    obtain ⟨m, rfl⟩ : ∃ m, n = m + 1 :=
      ⟨n - 1, (Nat.succ_pred_eq_of_pos hj).symm⟩
    rw [Nat.add_zero] at hfail
    have hpl := place_order_apiError filters client k symbol side "MARKET"
      slice_qty none none P e hP hfail
    simp [twapGo, hpl, submitCount]
  | succ j ih =>
    intro n k hj hok hfail
    obtain ⟨m, rfl⟩ : ∃ m, n = m + 1 :=
      ⟨n - 1, (Nat.succ_pred_eq_of_pos (Nat.lt_of_le_of_lt (Nat.zero_le _) hj)).symm⟩
    have hm : ¬(m = 0) := by omega
    obtain ⟨r, hr⟩ := hok 0 (Nat.succ_pos j)
    rw [Nat.add_zero] at hr
    have hpl := place_order_ok filters client k symbol side "MARKET"
      slice_qty none none P r hP hr
    have ih' := ih m (k + 1) (by omega)
      (fun i hi => by
        have h := hok (i + 1) (by omega)
        rwa [show k + (i + 1) = k + 1 + i by omega] at h)
      (by
        have h := hfail
        rwa [show k + (j + 1) = k + 1 + j by omega] at h)
    refine ⟨?_, ?_⟩
    · simp [twapGo, hpl, hm, ih'.1, Except.map]
    · simp only [twapGo, hpl]
      have h2 := ih'.2
      simp only [submitCount] at h2 ⊢
      simp [hm, List.countP_cons, List.countP_append, h2]

theorem gridGo_failfast (filters : Filters) (client : Client)
    (symbol side : String) (qty : ℚ) (e : ApiError) :
    ∀ (ps : List ℚ) (Pf : ℕ → OrderParams) (j k : ℕ), j < ps.length →
    (∀ i, i ≤ j → buildParams filters symbol side "LIMIT" qty
        (some (ps.getD i 0)) none = Except.ok (Pf i)) →
    (∀ i, i < j → ∃ r, client (k + i) (Pf i) = Except.ok r) →
    client (k + j) (Pf j) = Except.error e →
    (gridGo filters client symbol side qty k ps).1
        = Except.error (BotError.api e)
    ∧ submitCount (gridGo filters client symbol side qty k ps).2
        = j + 1 := by
  intro ps
  induction ps with
  | nil =>
    intro Pf j k hj _ _ _
    exact absurd hj (by simp)
  | cons p rest ih =>
    intro Pf j k hj hbuild hok hfail
    cases j with
    | zero =>
      have hb := hbuild 0 (Nat.le_refl 0)
      rw [List.getD_cons_zero] at hb
      rw [Nat.add_zero] at hfail
      have hpl := place_order_apiError filters client k symbol side "LIMIT"
        qty (some p) none (Pf 0) e hb hfail
      simp [gridGo, hpl, submitCount]
    | succ j =>
      have hb0 := hbuild 0 (Nat.zero_le _)
      rw [List.getD_cons_zero] at hb0
      obtain ⟨r, hr⟩ := hok 0 (Nat.succ_pos j)
      rw [Nat.add_zero] at hr
      have hpl := place_order_ok filters client k symbol side "LIMIT"
        qty (some p) none (Pf 0) r hb0 hr
      have ih' := ih (fun i => Pf (i + 1)) j (k + 1)
        (by simpa using hj)
        (fun i hi => by
          have h := hbuild (i + 1) (Nat.succ_le_succ hi)
          rwa [List.getD_cons_succ] at h)
        (fun i hi => by
          have h := hok (i + 1) (Nat.succ_lt_succ hi)
          rwa [show k + (i + 1) = k + 1 + i by omega] at h)
        (by
          have h := hfail
          rwa [show k + (j + 1) = k + 1 + j by omega] at h)
      refine ⟨?_, ?_⟩
      · simp [gridGo, hpl, ih'.1, Except.map]
      · simp only [gridGo, hpl]
        have h2 := ih'.2
        simp only [submitCount] at h2 ⊢
        simp [List.countP_cons, List.countP_append, h2]

end TradingBot

namespace TradingBot

/-- C1 (amended): fail-fast holds, partial-result return does not.  If
the (j+1)-th slice/level submission of a TWAP or Grid run fails with an
exchange error after j successes, the strategy aborts immediately —
exactly j+1 submissions are ever issued, so the remaining slices/levels
are never submitted — and the exception propagates alone: the call
returns only the triggering error, the accumulated partial result
sequence being discarded, not returned. -/
theorem strategy_failfast_aborts :
    (∀ (filters : Filters) (client : Client) (symbol side : String)
      (tq dur : ℚ) (n j : ℕ) (P : OrderParams) (e : ApiError),
      j < n →
      buildParams filters symbol side "MARKET" (tq / (n : ℚ)) none none
        = Except.ok P →
      (∀ i, i < j → ∃ r, client i P = Except.ok r) →
      client j P = Except.error e →
      (execute_twap filters client symbol side tq dur n).1
          = Except.error (BotError.api e)
      ∧ submitCount (execute_twap filters client symbol side tq dur n).2
          = j + 1)
    ∧ (∀ (filters : Filters) (client : Client) (symbol side : String)
      (tq lo hi : ℚ) (n j : ℕ) (Pf : ℕ → OrderParams) (e : ApiError),
      j < n →
      (∀ i, i ≤ j → buildParams filters symbol side "LIMIT" (tq / (n : ℚ))
          (some ((linspace lo hi n).getD i 0)) none = Except.ok (Pf i)) →
      (∀ i, i < j → ∃ r, client i (Pf i) = Except.ok r) →
      client j (Pf j) = Except.error e →
      (execute_grid filters client symbol side tq lo hi n).1
          = Except.error (BotError.api e)
      ∧ submitCount (execute_grid filters client symbol side tq lo hi n).2
          = j + 1) := by
  constructor
  · intro filters client symbol side tq dur n j P e hj hP hok hfail
    have hn : ¬(n = 0) := by omega
    have h := twapGo_failfast filters client symbol side (tq / (n : ℚ))
      (dur / (n : ℚ)) P e hP j n 0 hj
      (fun i hi => by simpa using hok i hi)
      (by simpa using hfail)
    simpa [execute_twap, hn] using h
  · intro filters client symbol side tq lo hi n j Pf e hj hbuild hok hfail
    have hn : ¬(n = 0) := by omega
    have hlen : j < (linspace lo hi n).length := by
      rw [linspace_length]; exact hj
    have h := gridGo_failfast filters client symbol side (tq / (n : ℚ)) e
      (linspace lo hi n) Pf j 0 hlen hbuild
      (fun i hi => by simpa using hok i hi)
      (by simpa using hfail)
    simpa [execute_grid, hn] using h

/-- C1 witness: TWAP of 5 slices against a client failing on the third
call, and a 3-level grid against the same client. -/
theorem strategy_failfast_aborts_witness :
    ((execute_twap [] failAt2 "B" "BUY" 10 30 5).1
        = Except.error (BotError.api (ApiError.mk (-2019)
            "Margin is insufficient."))
      ∧ submitCount (execute_twap [] failAt2 "B" "BUY" 10 30 5).2 = 3)
    ∧ ((execute_grid [] failAt2 "B" "BUY" 9 100 200 3).1
        = Except.error (BotError.api (ApiError.mk (-2019)
            "Margin is insufficient."))
      ∧ submitCount (execute_grid [] failAt2 "B" "BUY" 9 100 200 3).2 = 3) := by
  constructor
  · exact strategy_failfast_aborts.1 [] failAt2 "B" "BUY" 10 30 5 2
      (OrderParams.mk "B" "BUY" "MARKET" (10 / ((5 : ℕ) : ℚ)) none none none)
      (ApiError.mk (-2019) "Margin is insufficient.")
      (by norm_num)
      rfl
      (fun i hi => ⟨ExchangeResponse.mk i, by simp [failAt2, Nat.ne_of_lt hi]⟩)
      rfl
  · exact strategy_failfast_aborts.2 [] failAt2 "B" "BUY" 9 100 200 3 2
      (fun i => OrderParams.mk "B" "BUY" "LIMIT" (9 / ((3 : ℕ) : ℚ))
        (some ((linspace 100 200 3).getD i 0)) none (some "GTC"))
      (ApiError.mk (-2019) "Margin is insufficient.")
      (by norm_num)
      (fun i _ => rfl)
      (fun i hi => ⟨ExchangeResponse.mk i, by simp [failAt2, Nat.ne_of_lt hi]⟩)
      rfl

/-- C1 counterexample: with the third of five TWAP slices failing, the
call does NOT return the two already-successful results plus the error:
it evaluates to the bare error (the Python exception propagates and the
local `results` list is lost).  The trace confirms the two successes,
the failing third submission, and no fourth or fifth. -/
theorem twap_partial_results_not_returned :
    execute_twap [] failAt2 "B" "BUY" 10 30 5
      = (Except.error (BotError.api (ApiError.mk (-2019)
          "Margin is insufficient.")),
         [Event.submit (OrderParams.mk "B" "BUY" "MARKET" 2 none none none),
          Event.sleep 6,
          Event.submit (OrderParams.mk "B" "BUY" "MARKET" 2 none none none),
          Event.sleep 6,
          Event.submit (OrderParams.mk "B" "BUY" "MARKET" 2 none none none)]) := by
  have hb : buildParams [] "B" "BUY" "MARKET" 2 none none
      = Except.ok (OrderParams.mk "B" "BUY" "MARKET" 2 none none none) := rfl
  have hp0 := place_order_ok [] failAt2 0 "B" "BUY" "MARKET" 2 none none _
    (ExchangeResponse.mk 0) hb rfl
  have hp1 := place_order_ok [] failAt2 1 "B" "BUY" "MARKET" 2 none none _
    (ExchangeResponse.mk 1) hb rfl
  have hp2 := place_order_apiError [] failAt2 2 "B" "BUY" "MARKET" 2 none none _
    (ApiError.mk (-2019) "Margin is insufficient.") hb rfl
  norm_num [execute_twap, twapGo, hp0, hp1, hp2, Except.map]

end TradingBot

namespace TradingBot

/-- C5: with the symbol carrying no quantity-step constraint (so 2
passes through normalization) and a client answering the five calls,
`executeTWAP(symbol, side, 10, 30, 5)` issues exactly five MARKET
submissions of quantity 2 each, in order, with a 6-second sleep between
each pair of consecutive submissions (four sleeps) and no sleep after
the last. -/
theorem executeTWAP_five_slices (filters : Filters) (client : Client)
    (symbol side : String) (rs : ℕ → ExchangeResponse)
    (hq : adjust_precision filters (strUpper symbol) 2 "LOT_SIZE"
      = Except.ok 2)
    (hc : ∀ k, k < 5 → client k (OrderParams.mk (strUpper symbol)
        (strUpper side) "MARKET" 2 none none none) = Except.ok (rs k)) :
    execute_twap filters client symbol side 10 30 5
      = (Except.ok [rs 0, rs 1, rs 2, rs 3, rs 4],
         [Event.submit (OrderParams.mk (strUpper symbol) (strUpper side)
            "MARKET" 2 none none none), Event.sleep 6,
          Event.submit (OrderParams.mk (strUpper symbol) (strUpper side)
            "MARKET" 2 none none none), Event.sleep 6,
          Event.submit (OrderParams.mk (strUpper symbol) (strUpper side)
            "MARKET" 2 none none none), Event.sleep 6,
          Event.submit (OrderParams.mk (strUpper symbol) (strUpper side)
            "MARKET" 2 none none none), Event.sleep 6,
          Event.submit (OrderParams.mk (strUpper symbol) (strUpper side)
            "MARKET" 2 none none none)]) := by
  have hb := buildParams_market filters symbol side 2 2 hq
  have hp0 := place_order_ok filters client 0 symbol side "MARKET" 2 none
    none _ _ hb (hc 0 (by norm_num))
  have hp1 := place_order_ok filters client 1 symbol side "MARKET" 2 none
    none _ _ hb (hc 1 (by norm_num))
  have hp2 := place_order_ok filters client 2 symbol side "MARKET" 2 none
    none _ _ hb (hc 2 (by norm_num))
  have hp3 := place_order_ok filters client 3 symbol side "MARKET" 2 none
    none _ _ hb (hc 3 (by norm_num))
  have hp4 := place_order_ok filters client 4 symbol side "MARKET" 2 none
    none _ _ hb (hc 4 (by norm_num))
  norm_num [execute_twap, twapGo, hp0, hp1, hp2, hp3, hp4, Except.map]

/-- C5 witness: empty rules table and the always-succeeding client. -/
theorem executeTWAP_five_slices_witness :
    execute_twap [] okClient "B" "BUY" 10 30 5
      = (Except.ok [ExchangeResponse.mk 0, ExchangeResponse.mk 1,
          ExchangeResponse.mk 2, ExchangeResponse.mk 3,
          ExchangeResponse.mk 4],
         [Event.submit (OrderParams.mk "B" "BUY" "MARKET" 2 none none none),
          Event.sleep 6,
          Event.submit (OrderParams.mk "B" "BUY" "MARKET" 2 none none none),
          Event.sleep 6,
          Event.submit (OrderParams.mk "B" "BUY" "MARKET" 2 none none none),
          Event.sleep 6,
          Event.submit (OrderParams.mk "B" "BUY" "MARKET" 2 none none none),
          Event.sleep 6,
          Event.submit (OrderParams.mk "B" "BUY" "MARKET" 2 none none
            none)]) :=
  executeTWAP_five_slices [] okClient "B" "BUY"
    (fun k => ExchangeResponse.mk k) rfl (fun _ _ => rfl)

/-- C6: with the symbol carrying no applicable constraints (quantities
and prices pass through) and a client answering the five calls,
`executeGrid(symbol, side, 10, 100, 200, 5)` issues exactly five LIMIT
submissions of quantity 2 at the evenly spaced prices
100, 125, 150, 175, 200, in strictly ascending order, with no sleep
events anywhere in the trace. -/
theorem executeGrid_five_levels (filters : Filters) (client : Client)
    (symbol side : String) (rs : ℕ → ExchangeResponse)
    (hq : adjust_precision filters (strUpper symbol) 2 "LOT_SIZE"
      = Except.ok 2)
    (hpr : ∀ p : ℚ, p ∈ ([100, 125, 150, 175, 200] : List ℚ) →
      adjust_precision filters (strUpper symbol) p "PRICE_FILTER"
        = Except.ok p)
    (hc : ∀ k, k < 5 → client k (OrderParams.mk (strUpper symbol)
        (strUpper side) "LIMIT" 2
        (some (((100 : ℚ) + 25 * k))) none (some "GTC"))
      = Except.ok (rs k)) :
    execute_grid filters client symbol side 10 100 200 5
      = (Except.ok [rs 0, rs 1, rs 2, rs 3, rs 4],
         [Event.submit (OrderParams.mk (strUpper symbol) (strUpper side)
            "LIMIT" 2 (some 100) none (some "GTC")),
          Event.submit (OrderParams.mk (strUpper symbol) (strUpper side)
            "LIMIT" 2 (some 125) none (some "GTC")),
          Event.submit (OrderParams.mk (strUpper symbol) (strUpper side)
            "LIMIT" 2 (some 150) none (some "GTC")),
          Event.submit (OrderParams.mk (strUpper symbol) (strUpper side)
            "LIMIT" 2 (some 175) none (some "GTC")),
          Event.submit (OrderParams.mk (strUpper symbol) (strUpper side)
            "LIMIT" 2 (some 200) none (some "GTC"))]) := by
  have hlin : linspace 100 200 5 = [100, 125, 150, 175, 200] := by
    norm_num [linspace, List.range_succ]
  have hb100 := buildParams_limit filters symbol side 2 100 2 100 hq
    (hpr 100 (by norm_num))
  have hb125 := buildParams_limit filters symbol side 2 125 2 125 hq
    (hpr 125 (by norm_num))
  have hb150 := buildParams_limit filters symbol side 2 150 2 150 hq
    (hpr 150 (by norm_num))
  have hb175 := buildParams_limit filters symbol side 2 175 2 175 hq
    (hpr 175 (by norm_num))
  have hb200 := buildParams_limit filters symbol side 2 200 2 200 hq
    (hpr 200 (by norm_num))
  have hc0 := hc 0 (by norm_num)
  have hc1 := hc 1 (by norm_num)
  have hc2 := hc 2 (by norm_num)
  have hc3 := hc 3 (by norm_num)
  have hc4 := hc 4 (by norm_num)
  norm_num at hc0 hc1 hc2 hc3 hc4
  have hp0 := place_order_ok filters client 0 symbol side "LIMIT" 2
    (some 100) none _ _ hb100 hc0
  have hp1 := place_order_ok filters client 1 symbol side "LIMIT" 2
    (some 125) none _ _ hb125 hc1
  have hp2 := place_order_ok filters client 2 symbol side "LIMIT" 2
    (some 150) none _ _ hb150 hc2
  have hp3 := place_order_ok filters client 3 symbol side "LIMIT" 2
    (some 175) none _ _ hb175 hc3
  have hp4 := place_order_ok filters client 4 symbol side "LIMIT" 2
    (some 200) none _ _ hb200 hc4
  norm_num [execute_grid, hlin, gridGo, hp0, hp1, hp2, hp3, hp4, Except.map]

/-- C6 witness: empty rules table and the always-succeeding client. -/
theorem executeGrid_five_levels_witness :
    execute_grid [] okClient "B" "BUY" 10 100 200 5
      = (Except.ok [ExchangeResponse.mk 0, ExchangeResponse.mk 1,
          ExchangeResponse.mk 2, ExchangeResponse.mk 3,
          ExchangeResponse.mk 4],
         [Event.submit (OrderParams.mk "B" "BUY" "LIMIT" 2 (some 100) none
            (some "GTC")),
          Event.submit (OrderParams.mk "B" "BUY" "LIMIT" 2 (some 125) none
            (some "GTC")),
          Event.submit (OrderParams.mk "B" "BUY" "LIMIT" 2 (some 150) none
            (some "GTC")),
          Event.submit (OrderParams.mk "B" "BUY" "LIMIT" 2 (some 175) none
            (some "GTC")),
          Event.submit (OrderParams.mk "B" "BUY" "LIMIT" 2 (some 200) none
            (some "GTC"))]) :=
  executeGrid_five_levels [] okClient "B" "BUY"
    (fun k => ExchangeResponse.mk k) rfl (fun _ _ => rfl) (fun _ _ => rfl)

/-- C7: a Grid call with a single level whose submission succeeds
issues exactly one LIMIT submission, priced at `lowerPrice`, with
quantity equal to the total quantity (given that both pass
normalization unchanged). -/
theorem executeGrid_single_level (filters : Filters) (client : Client)
    (symbol side : String) (tq lo hi : ℚ) (r : ExchangeResponse)
    (hq : adjust_precision filters (strUpper symbol) tq "LOT_SIZE"
      = Except.ok tq)
    (hp : adjust_precision filters (strUpper symbol) lo "PRICE_FILTER"
      = Except.ok lo)
    (hc : client 0 (OrderParams.mk (strUpper symbol) (strUpper side)
        "LIMIT" tq (some lo) none (some "GTC")) = Except.ok r) :
    execute_grid filters client symbol side tq lo hi 1
      = (Except.ok [r],
         [Event.submit (OrderParams.mk (strUpper symbol) (strUpper side)
            "LIMIT" tq (some lo) none (some "GTC"))]) := by
  have hlin : linspace lo hi 1 = [lo] := by simp [linspace]
  have hb := buildParams_limit filters symbol side tq lo tq lo hq hp
  have hp0 := place_order_ok filters client 0 symbol side "LIMIT" tq
    (some lo) none _ _ hb hc
  have h1 : tq / ((1 : ℕ) : ℚ) = tq := by norm_num
  simp [execute_grid, hlin, h1, gridGo, hp0, Except.map]

/-- C7 witness: one level between 100 and 200, total quantity 10. -/
theorem executeGrid_single_level_witness :
    execute_grid [] okClient "B" "BUY" 10 100 200 1
      = (Except.ok [ExchangeResponse.mk 0],
         [Event.submit (OrderParams.mk "B" "BUY" "LIMIT" 10 (some 100) none
            (some "GTC"))]) :=
  executeGrid_single_level [] okClient "B" "BUY" 10 100 200
    (ExchangeResponse.mk 0) rfl rfl rfl

end TradingBot
